import Mathlib

/-!
Verification development for the Amana-Bookstore data layer.

Shallow embedding of the MongoDB-backed service functions in
`src/app/lib/services/{books,cart,reviews}.ts` and the route handlers in
`src/app/api/{cart,reviews}/route.ts`.

Modelling conventions:
* A MongoDB collection is a `List` of documents in natural (insertion) order;
  `findOne` is `List.find?`, `findOneAndUpdate` updates the first match,
  `deleteOne` deletes the first match, `insertOne` appends.
* `ObjectId` values are modelled as their canonical lowercase hex strings
  (`OID`); `new ObjectId(s)` is `toOID s` and `.toHexString()` is the
  identity on canonical values.
* JavaScript numbers are modelled as `ℚ` (the claims only involve exact
  small values, where JS float arithmetic is exact).
* `async` functions that can reject are modelled in `Except JsError`; the
  possible failure of `connectToDatabase` (and hence of every storage
  access) is modelled by an `up` flag on each collection state: when
  `up = false`, touching the collection yields `JsError.storageFailure`.
* Driver-generated fresh `_id`s and `new Date().toISOString()` values are
  passed as explicit parameters (`fresh`, `now`).
-/

set_option maxHeartbeats 1000000
set_option maxRecDepth 8000

/-- Hex digit test used by `ObjectId.isValid` (regex `[0-9a-fA-F]`). -/
def isHexChar (c : Char) : Bool :=
  c.isDigit || ('a' ≤ c && c ≤ 'f') || ('A' ≤ c && c ≤ 'F')

namespace ObjectId

/-- Model of `ObjectId.isValid` from the mongodb driver for string input:
a 12-character string (12-byte representation) or a 24-character hex string. -/
def isValid (s : String) : Bool :=
  s.length == 12 || (s.length == 24 && s.data.all isHexChar)

end ObjectId

/-- A storage-native identifier: the canonical lowercase-hex rendering of a
MongoDB `ObjectId`.  `toHexString` is the identity on this representation. -/
abbrev OID := String

/-- Lowercase hex digit for a nibble. -/
def hexDigit (n : Nat) : Char :=
  if n < 10 then Char.ofNat (48 + n) else Char.ofNat (87 + n)

/-- Two lowercase hex digits for one byte (used for the 12-byte string form). -/
def byteHex (c : Char) : List Char :=
  [hexDigit ((c.toNat / 16) % 16), hexDigit (c.toNat % 16)]

/-- ASCII lowercase (all the hex alphabet needs). -/
def charLower (c : Char) : Char :=
  if 'A' ≤ c && c ≤ 'Z' then Char.ofNat (c.toNat + 32) else c

/-- Model of `new ObjectId(s)` for a string `s` accepted by
`ObjectId.isValid`: a 12-character string is taken as raw bytes and hex
encoded; a 24-character hex string is normalised to lowercase. -/
def toOID (s : String) : OID :=
  if s.length == 12 then ⟨(s.data.map byteHex).flatten⟩
  else ⟨s.data.map charLower⟩

/-- Errors a service call can reject with (JavaScript `throw` /rejected
promise), as observed by the route layer's `catch`. -/
inductive JsError where
  | invalidBookId
  | storageFailure
  | updateFailed
  | retrieveFailed
  | bsonError
deriving DecidableEq, Repr

/-- `collection.findOneAndUpdate(filter, {$set..}, {returnDocument:'after'})`:
update the first document matching `p` by `f`; return the updated document
(or `none`) together with the updated collection. -/
def findOneAndUpdate (p : α → Bool) (f : α → α) : List α → Option α × List α
  | [] => (none, [])
  | x :: xs =>
    if p x then (some (f x), f x :: xs)
    else
      let r := findOneAndUpdate p f xs
      (r.1, x :: r.2)

/-- The collection part of `findOneAndUpdate`: update the first match. -/
def updateFirst (p : α → Bool) (f : α → α) : List α → List α
  | [] => []
  | x :: xs => if p x then f x :: xs else x :: updateFirst p f xs

/-- `collection.deleteOne(filter)`: delete the first document matching `p`;
return `deletedCount` together with the updated collection. -/
def deleteOne (p : α → Bool) : List α → Nat × List α
  | [] => (0, [])
  | x :: xs =>
    if p x then (1, xs)
    else
      let r := deleteOne p xs
      (r.1, x :: r.2)

namespace Cart

/-- Document shape of the `cart` collection (`CartItemDocument` in
`cart.ts`), together with its storage `_id`. -/
structure CartItemDocument where
  _id : OID
  bookId : OID
  quantity : ℚ
  addedAt : String
deriving DecidableEq, Repr

/-- External `CartItem` shape returned by the cart service. -/
structure CartItem where
  id : String
  bookId : String
  quantity : ℚ
  addedAt : String
deriving DecidableEq, Repr

/-- State of the `cart` collection plus storage availability. -/
structure CartDb where
  up : Bool
  docs : List CartItemDocument
deriving DecidableEq, Repr

/-- `getCartCollection`: reaches storage via `connectToDatabase`, which can
reject; models the collection handle as the document list. -/
def getCartCollection (db : CartDb) : Except JsError (List CartItemDocument) :=
  if db.up then .ok db.docs else .error .storageFailure

/-- `mapMongoId` from `cart.ts`: map `_id`/`bookId` to hex strings. -/
def mapMongoId (d : CartItemDocument) : CartItem :=
  ⟨d._id, d.bookId, d.quantity, d.addedAt⟩

/-- `getCart` from `cart.ts`: list every cart document. -/
def getCart (db : CartDb) : Except JsError (List CartItem) :=
  match getCartCollection db with
  | .error e => .error e
  | .ok docs => .ok (docs.map mapMongoId)

/-- Input shape of `addCartItem` (`{ bookId: string, quantity: number }`). -/
structure CartAddInput where
  bookId : String
  quantity : ℚ
deriving DecidableEq, Repr

/-- `addCartItem` from `cart.ts`: throws `Error('Invalid Book ID')` on a
malformed id; otherwise finds an existing line for the book and adds the
quantities (merge), or inserts a new line with `addedAt := now`. -/
def addCartItem (fresh : OID) (now : String) (itemData : CartAddInput)
    (db : CartDb) : Except JsError (CartItem × CartDb) :=
  if !(ObjectId.isValid itemData.bookId) then .error .invalidBookId
  else
    match getCartCollection db with
    | .error e => .error e
    | .ok docs =>
      let bookObjectId := toOID itemData.bookId
      match docs.find? (fun d => d.bookId == bookObjectId) with
      | some existingItem =>
        let newQuantity := existingItem.quantity + itemData.quantity
        match findOneAndUpdate (fun d => d._id == existingItem._id)
            (fun d => { d with quantity := newQuantity }) docs with
        | (none, _) => .error .updateFailed
        | (some updated, docs') => .ok (mapMongoId updated, ⟨db.up, docs'⟩)
      | none =>
        let newItemDocument : CartItemDocument :=
          ⟨fresh, bookObjectId, itemData.quantity, now⟩
        let docs' := docs ++ [newItemDocument]
        match docs'.find? (fun d => d._id == fresh) with
        | none => .error .retrieveFailed
        | some newItem => .ok (mapMongoId newItem, ⟨db.up, docs'⟩)

/-- `removeCartItem` from `cart.ts`: `false` on a malformed id, otherwise
`deleteOne` by `_id` and report `deletedCount === 1`. -/
def removeCartItem (cartItemId : String) (db : CartDb) :
    Except JsError (Bool × CartDb) :=
  if !(ObjectId.isValid cartItemId) then .ok (false, db)
  else
    match getCartCollection db with
    | .error e => .error e
    | .ok docs =>
      let r := deleteOne (fun d => d._id == toOID cartItemId) docs
      .ok (r.1 == 1, ⟨db.up, r.2⟩)

/-- `updateCartItemQuantity` from `cart.ts`: malformed id gives `null`;
`quantity ≤ 0` delegates to `removeCartItem` and returns `null`; otherwise
overwrite the matching line's quantity. -/
def updateCartItemQuantity (cartItemId : String) (quantity : ℚ)
    (db : CartDb) : Except JsError (Option CartItem × CartDb) :=
  if !(ObjectId.isValid cartItemId) then .ok (none, db)
  else if quantity ≤ 0 then
    match removeCartItem cartItemId db with
    | .error e => .error e
    | .ok (_, db') => .ok (none, db')
  else
    match getCartCollection db with
    | .error e => .error e
    | .ok docs =>
      match findOneAndUpdate (fun d => d._id == toOID cartItemId)
          (fun d => { d with quantity := quantity }) docs with
      | (r, docs') => .ok (r.map mapMongoId, ⟨db.up, docs'⟩)

/-- `clearCart` from `cart.ts`: `deleteMany({})`, returning the count. -/
def clearCart (db : CartDb) : Except JsError (Nat × CartDb) :=
  match getCartCollection db with
  | .error e => .error e
  | .ok docs => .ok (docs.length, ⟨db.up, []⟩)

/-- Cart documents after an operation, whatever its outcome (an error in
the model is always raised before any mutation). -/
def docsAfter {α : Type} (db : CartDb) (r : Except JsError (α × CartDb)) :
    List CartItemDocument :=
  match r with
  | .ok (_, db') => db'.docs
  | .error _ => db.docs

/-- The cart uniqueness invariant: at most one line per book identifier. -/
abbrev cartInv (docs : List CartItemDocument) : Prop :=
  (docs.map (fun d => d.bookId)).Nodup

/-- Quantity stored for book `b` (0 when no line for `b` exists). -/
def bookQty (b : String) (docs : List CartItemDocument) : ℚ :=
  ((docs.find? (fun d => d.bookId == toOID b)).map
    (fun d => d.quantity)).getD 0

end Cart

namespace Books

/-- The attribute record of a `Book` (everything except the identifier);
the field list mirrors `requiredFields` in `api/books/route.ts`. -/
structure BookData where
  title : String
  author : String
  description : String
  price : ℚ
  image : String
  isbn : String
  genre : List String
  tags : List String
  datePublished : String
  pages : Int
  language : String
  publisher : String
  rating : ℚ
  reviewCount : Int
  inStock : Bool
  featured : Bool
deriving DecidableEq, Repr

/-- Document shape of the `books` collection (`Omit<Book,'id'>` plus the
storage `_id`). -/
structure BookDoc where
  _id : OID
  data : BookData
deriving DecidableEq, Repr

/-- External `Book` shape: the attributes plus the hex-string identifier. -/
structure Book where
  id : String
  data : BookData
deriving DecidableEq, Repr

/-- State of the `books` collection plus storage availability. -/
structure BooksDb where
  up : Bool
  docs : List BookDoc
deriving DecidableEq, Repr

/-- `getBooksCollection` from `books.ts`. -/
def getBooksCollection (db : BooksDb) : Except JsError (List BookDoc) :=
  if db.up then .ok db.docs else .error .storageFailure

/-- `mapMongoId` from `books.ts`: map `_id` to the external `id`. -/
def mapMongoId (d : BookDoc) : Book := ⟨d._id, d.data⟩

/-- `getAllBooks` from `books.ts`. -/
def getAllBooks (db : BooksDb) : Except JsError (List Book) :=
  match getBooksCollection db with
  | .error e => .error e
  | .ok docs => .ok (docs.map mapMongoId)

/-- `getBookById` from `books.ts`: `null` on a malformed id, otherwise
`findOne` by `_id`. -/
def getBookById (id : String) (db : BooksDb) : Except JsError (Option Book) :=
  if !(ObjectId.isValid id) then .ok none
  else
    match getBooksCollection db with
    | .error e => .error e
    | .ok docs => .ok ((docs.find? (fun d => d._id == toOID id)).map mapMongoId)

/-- `createBook` from `books.ts`: `insertOne` the attribute record, then
fetch the inserted document by its `_id` and return it. -/
def createBook (fresh : OID) (bookData : BookData) (db : BooksDb) :
    Except JsError (Book × BooksDb) :=
  match getBooksCollection db with
  | .error e => .error e
  | .ok docs =>
    let docs' := docs ++ [⟨fresh, bookData⟩]
    match docs'.find? (fun d => d._id == fresh) with
    | none => .error .retrieveFailed
    | some newBook => .ok (mapMongoId newBook, ⟨db.up, docs'⟩)

/-- `Partial<Omit<Book,'id'>>`: the `$set` document for `updateBook`. -/
structure BookUpdates where
  title : Option String := none
  author : Option String := none
  description : Option String := none
  price : Option ℚ := none
  image : Option String := none
  isbn : Option String := none
  genre : Option (List String) := none
  tags : Option (List String) := none
  datePublished : Option String := none
  pages : Option Int := none
  language : Option String := none
  publisher : Option String := none
  rating : Option ℚ := none
  reviewCount : Option Int := none
  inStock : Option Bool := none
  featured : Option Bool := none
deriving DecidableEq, Repr

/-- Effect of `{$set: updates}` on one book document: each provided field
overwrites, each absent field is left unchanged. -/
def applyBookSet (u : BookUpdates) (d : BookDoc) : BookDoc :=
  { d with data :=
    { title := u.title.getD d.data.title
      author := u.author.getD d.data.author
      description := u.description.getD d.data.description
      price := u.price.getD d.data.price
      image := u.image.getD d.data.image
      isbn := u.isbn.getD d.data.isbn
      genre := u.genre.getD d.data.genre
      tags := u.tags.getD d.data.tags
      datePublished := u.datePublished.getD d.data.datePublished
      pages := u.pages.getD d.data.pages
      language := u.language.getD d.data.language
      publisher := u.publisher.getD d.data.publisher
      rating := u.rating.getD d.data.rating
      reviewCount := u.reviewCount.getD d.data.reviewCount
      inStock := u.inStock.getD d.data.inStock
      featured := u.featured.getD d.data.featured } }

/-- `updateBook` from `books.ts`: `null` on a malformed id, otherwise
`findOneAndUpdate` by `_id` with `$set`, returning the updated document. -/
def updateBook (id : String) (updates : BookUpdates) (db : BooksDb) :
    Except JsError (Option Book × BooksDb) :=
  if !(ObjectId.isValid id) then .ok (none, db)
  else
    match getBooksCollection db with
    | .error e => .error e
    | .ok docs =>
      match findOneAndUpdate (fun d => d._id == toOID id)
          (applyBookSet updates) docs with
      | (r, docs') => .ok (r.map mapMongoId, ⟨db.up, docs'⟩)

/-- `deleteBook` from `books.ts`: `false` on a malformed id, otherwise
`deleteOne` by `_id` and report `deletedCount === 1`. -/
def deleteBook (id : String) (db : BooksDb) :
    Except JsError (Bool × BooksDb) :=
  if !(ObjectId.isValid id) then .ok (false, db)
  else
    match getBooksCollection db with
    | .error e => .error e
    | .ok docs =>
      let r := deleteOne (fun d => d._id == toOID id) docs
      .ok (r.1 == 1, ⟨db.up, r.2⟩)

end Books

namespace Reviews

/-- Document shape of the `reviews` collection (`ReviewDocument` in
`reviews.ts`), together with its storage `_id`. -/
structure ReviewDocument where
  _id : OID
  bookId : OID
  author : String
  rating : ℚ
  title : String
  comment : String
  timestamp : String
  verified : Bool
deriving DecidableEq, Repr

/-- External `Review` shape returned by the review service. -/
structure Review where
  id : String
  bookId : String
  author : String
  rating : ℚ
  title : String
  comment : String
  timestamp : String
  verified : Bool
deriving DecidableEq, Repr

/-- State of the `reviews` collection plus storage availability. -/
structure ReviewsDb where
  up : Bool
  docs : List ReviewDocument
deriving DecidableEq, Repr

/-- `getReviewsCollection` from `reviews.ts`. -/
def getReviewsCollection (db : ReviewsDb) :
    Except JsError (List ReviewDocument) :=
  if db.up then .ok db.docs else .error .storageFailure

/-- `mapMongoId` from `reviews.ts`. -/
def mapMongoId (d : ReviewDocument) : Review :=
  ⟨d._id, d.bookId, d.author, d.rating, d.title, d.comment, d.timestamp,
   d.verified⟩

/-- `getAllReviews` from `reviews.ts`. -/
def getAllReviews (db : ReviewsDb) : Except JsError (List Review) :=
  match getReviewsCollection db with
  | .error e => .error e
  | .ok docs => .ok (docs.map mapMongoId)

/-- `getReviewById` from `reviews.ts`: `null` on a malformed id, otherwise
`findOne` by `_id`. -/
def getReviewById (id : String) (db : ReviewsDb) :
    Except JsError (Option Review) :=
  if !(ObjectId.isValid id) then .ok none
  else
    match getReviewsCollection db with
    | .error e => .error e
    | .ok docs =>
      .ok ((docs.find? (fun d => d._id == toOID id)).map mapMongoId)

/-- `getReviewsByBookId` from `reviews.ts`: `null` on a malformed bookId,
otherwise all reviews whose `bookId` equals the translated id. -/
def getReviewsByBookId (bookId : String) (db : ReviewsDb) :
    Except JsError (Option (List Review)) :=
  if !(ObjectId.isValid bookId) then .ok none
  else
    match getReviewsCollection db with
    | .error e => .error e
    | .ok docs =>
      .ok (some ((docs.filter (fun d => d.bookId == toOID bookId)).map
        mapMongoId))

/-- Input shape of `createReview` (`Omit<Review,'id'>`). -/
structure ReviewInput where
  bookId : String
  author : String
  rating : ℚ
  title : String
  comment : String
  timestamp : String
  verified : Bool
deriving DecidableEq, Repr

/-- `createReview` from `reviews.ts`: builds the stored document with
`bookId := new ObjectId(...)` (throws a BSON error when malformed),
`timestamp := new Date().toISOString()` (overriding any supplied value) and
`verified := reviewData.verified || false`, inserts it and fetches it back. -/
def createReview (fresh : OID) (now : String) (reviewData : ReviewInput)
    (db : ReviewsDb) : Except JsError (Review × ReviewsDb) :=
  match getReviewsCollection db with
  | .error e => .error e
  | .ok docs =>
    if !(ObjectId.isValid reviewData.bookId) then .error .bsonError
    else
      let reviewDocument : ReviewDocument :=
        ⟨fresh, toOID reviewData.bookId, reviewData.author, reviewData.rating,
         reviewData.title, reviewData.comment, now,
         reviewData.verified || false⟩
      let docs' := docs ++ [reviewDocument]
      match docs'.find? (fun d => d._id == fresh) with
      | none => .error .retrieveFailed
      | some newReview => .ok (mapMongoId newReview, ⟨db.up, docs'⟩)

/-- `Partial<Omit<Review,'id'>>`: the update request body. -/
structure ReviewUpdates where
  bookId : Option String := none
  author : Option String := none
  rating : Option ℚ := none
  title : Option String := none
  comment : Option String := none
  timestamp : Option String := none
  verified : Option Bool := none
deriving DecidableEq, Repr

/-- The `dbUpdates` object `updateReview` passes to `$set`: everything from
the request except `bookId`, plus a translated `bookId` only when the
supplied one is truthy and valid. -/
structure ReviewDbUpdates where
  bookId : Option OID
  author : Option String
  rating : Option ℚ
  title : Option String
  comment : Option String
  timestamp : Option String
  verified : Option Bool
deriving DecidableEq, Repr

/-- Effect of `{$set: dbUpdates}` on one review document. -/
def applyReviewSet (u : ReviewDbUpdates) (d : ReviewDocument) :
    ReviewDocument :=
  { d with
    bookId := u.bookId.getD d.bookId
    author := u.author.getD d.author
    rating := u.rating.getD d.rating
    title := u.title.getD d.title
    comment := u.comment.getD d.comment
    timestamp := u.timestamp.getD d.timestamp
    verified := u.verified.getD d.verified }

/-- `updateReview` from `reviews.ts`: `null` on a malformed review id;
otherwise build `dbUpdates` from everything except `bookId`, add
`bookId := new ObjectId(bookId)` only `if (bookId && ObjectId.isValid(bookId))`
(a malformed supplied bookId is silently dropped), and `findOneAndUpdate`
by `_id`. -/
def updateReview (id : String) (updates : ReviewUpdates) (db : ReviewsDb) :
    Except JsError (Option Review × ReviewsDb) :=
  if !(ObjectId.isValid id) then .ok (none, db)
  else
    match getReviewsCollection db with
    | .error e => .error e
    | .ok docs =>
      let dbUpdates : ReviewDbUpdates :=
        { bookId :=
            match updates.bookId with
            | some b =>
              if (b != "") && ObjectId.isValid b then some (toOID b) else none
            | none => none
          author := updates.author
          rating := updates.rating
          title := updates.title
          comment := updates.comment
          timestamp := updates.timestamp
          verified := updates.verified }
      match findOneAndUpdate (fun d => d._id == toOID id)
          (applyReviewSet dbUpdates) docs with
      | (r, docs') => .ok (r.map mapMongoId, ⟨db.up, docs'⟩)

/-- `deleteReview` from `reviews.ts`: `false` on a malformed id, otherwise
`deleteOne` by `_id` and report `deletedCount === 1`. -/
def deleteReview (id : String) (db : ReviewsDb) :
    Except JsError (Bool × ReviewsDb) :=
  if !(ObjectId.isValid id) then .ok (false, db)
  else
    match getReviewsCollection db with
    | .error e => .error e
    | .ok docs =>
      let r := deleteOne (fun d => d._id == toOID id) docs
      .ok (r.1 == 1, ⟨db.up, r.2⟩)

end Reviews

namespace Routes

/-- Request body of `POST /api/cart` as parsed JSON (`bookId`, `quantity`;
a missing property is `none`). -/
structure CartPostBody where
  bookId : Option String
  quantity : Option ℚ
deriving DecidableEq, Repr

/-- Response of the cart POST route: HTTP status plus the JSON body's
`error` and `item` properties. -/
structure CartRouteResponse where
  status : Nat
  error : Option String
  item : Option Cart.CartItem
deriving DecidableEq, Repr

/-- `POST /api/cart` from `api/cart/route.ts`: 400 when `bookId` is falsy
or `quantity` is missing, 400 when `quantity ≤ 0`, otherwise call
`addCartItem`; a thrown service error is caught and mapped to a generic
500. -/
def postCart (body : CartPostBody) (fresh : OID) (now : String)
    (db : Cart.CartDb) : CartRouteResponse × Cart.CartDb :=
  match body.bookId, body.quantity with
  | some bookId, some quantity =>
    if bookId == "" then
      (⟨400, some "Missing required fields: bookId, quantity", none⟩, db)
    else if quantity ≤ 0 then
      (⟨400, some "Quantity must be a positive number", none⟩, db)
    else
      match Cart.addCartItem fresh now ⟨bookId, quantity⟩ db with
      | .ok (newItem, db') => (⟨201, none, some newItem⟩, db')
      | .error _ =>
        (⟨500, some "An error occurred while adding the item to the cart.",
          none⟩, db)
  | _, _ =>
    (⟨400, some "Missing required fields: bookId, quantity", none⟩, db)

/-- Request body of `POST /api/reviews` as parsed JSON. -/
structure ReviewPostBody where
  bookId : Option String
  author : Option String
  rating : Option ℚ
  title : Option String
  comment : Option String
  timestamp : Option String
  verified : Option Bool
deriving DecidableEq, Repr

/-- Response of the reviews POST route: HTTP status plus the JSON body's
`error` and `review` properties. -/
structure ReviewRouteResponse where
  status : Nat
  error : Option String
  review : Option Reviews.Review
deriving DecidableEq, Repr

/-- `POST /api/reviews` from `api/reviews/route.ts`: 400 when any of the
five required fields is undefined; otherwise build the service input with
`timestamp := new Date().toISOString()` and
`verified := body.verified || false` and call `createReview`; a thrown
service error is caught and mapped to a generic 500. -/
def postReviews (body : ReviewPostBody) (fresh : OID)
    (nowRoute nowService : String) (db : Reviews.ReviewsDb) :
    ReviewRouteResponse × Reviews.ReviewsDb :=
  if body.bookId.isNone then
    (⟨400, some "Missing required field: bookId", none⟩, db)
  else if body.author.isNone then
    (⟨400, some "Missing required field: author", none⟩, db)
  else if body.rating.isNone then
    (⟨400, some "Missing required field: rating", none⟩, db)
  else if body.title.isNone then
    (⟨400, some "Missing required field: title", none⟩, db)
  else if body.comment.isNone then
    (⟨400, some "Missing required field: comment", none⟩, db)
  else
    match body.bookId, body.author, body.rating, body.title, body.comment with
    | some bookId, some author, some rating, some title, some comment =>
      let reviewData : Reviews.ReviewInput :=
        ⟨bookId, author, rating, title, comment, nowRoute,
         body.verified.getD false⟩
      match Reviews.createReview fresh nowService reviewData db with
      | .ok (newReview, db') => (⟨201, none, some newReview⟩, db')
      | .error _ =>
        (⟨500, some "An error occurred while creating the review.", none⟩, db)
    | _, _, _, _, _ =>
      (⟨400, some "Missing required field: bookId", none⟩, db)

end Routes

/-- The rational 3/2 — a positive number that is not an integer — written
in normal form so that kernel evaluation can compute with it. -/
def threeHalves : ℚ := ⟨3, 2, by decide, by decide⟩

/-! ### Lemmas about the MongoDB list primitives -/

theorem find?_middle {α : Type} (p : α → Bool) (l₁ l₂ : List α) (a : α)
    (h₁ : ∀ x ∈ l₁, p x = false) (ha : p a = true) :
    (l₁ ++ a :: l₂).find? p = some a := by
  induction l₁ with
  | nil => simpa using List.find?_cons_of_pos l₂ ha
  | cons x xs ih =>
    have hx : ¬ (p x = true) := by simp [h₁ x (by simp)]
    rw [List.cons_append, List.find?_cons_of_neg _ hx]
    exact ih (fun y hy => h₁ y (by simp [hy]))

theorem find?_some_split {α : Type} {p : α → Bool} {l : List α} {a : α}
    (h : l.find? p = some a) :
    ∃ l₁ l₂, l = l₁ ++ a :: l₂ ∧ ∀ x ∈ l₁, p x = false := by
  induction l with
  | nil => simp [List.find?] at h
  | cons x xs ih =>
    by_cases hx : p x = true
    · rw [List.find?_cons_of_pos _ hx] at h
      obtain rfl : x = a := by exact Option.some.inj h
      exact ⟨[], xs, rfl, by simp⟩
    · rw [List.find?_cons_of_neg _ hx] at h
      obtain ⟨l₁, l₂, rfl, hl₁⟩ := ih h
      refine ⟨x :: l₁, l₂, rfl, ?_⟩
      intro y hy
      rcases List.mem_cons.mp hy with rfl | hy
      · simpa using hx
      · exact hl₁ y hy

theorem find?_none_of_all_false {α : Type} {p : α → Bool} {l : List α}
    (h : ∀ x ∈ l, p x = false) : l.find? p = none :=
  List.find?_eq_none.mpr (fun x hx => by simp [h x hx])

theorem findOneAndUpdate_middle {α : Type} (p : α → Bool) (f : α → α)
    (l₁ l₂ : List α) (a : α)
    (h₁ : ∀ x ∈ l₁, p x = false) (ha : p a = true) :
    findOneAndUpdate p f (l₁ ++ a :: l₂) = (some (f a), l₁ ++ f a :: l₂) := by
  induction l₁ with
  | nil => simp [findOneAndUpdate, ha]
  | cons x xs ih =>
    have hx : p x = false := h₁ x (by simp)
    have ih' := ih (fun y hy => h₁ y (by simp [hy]))
    simp [findOneAndUpdate, hx, ih']

theorem findOneAndUpdate_none {α : Type} {p : α → Bool} (f : α → α)
    {l : List α} (h : ∀ x ∈ l, p x = false) :
    findOneAndUpdate p f l = (none, l) := by
  induction l with
  | nil => simp [findOneAndUpdate]
  | cons x xs ih =>
    have hx : p x = false := h x (by simp)
    have ih' := ih (fun y hy => h y (by simp [hy]))
    simp [findOneAndUpdate, hx, ih']

theorem deleteOne_middle {α : Type} (p : α → Bool) (l₁ l₂ : List α) (a : α)
    (h₁ : ∀ x ∈ l₁, p x = false) (ha : p a = true) :
    deleteOne p (l₁ ++ a :: l₂) = (1, l₁ ++ l₂) := by
  induction l₁ with
  | nil => simp [deleteOne, ha]
  | cons x xs ih =>
    have hx : p x = false := h₁ x (by simp)
    have ih' := ih (fun y hy => h₁ y (by simp [hy]))
    simp [deleteOne, hx, ih']

theorem deleteOne_none {α : Type} {p : α → Bool} {l : List α}
    (h : ∀ x ∈ l, p x = false) : deleteOne p l = (0, l) := by
  induction l with
  | nil => simp [deleteOne]
  | cons x xs ih =>
    have hx : p x = false := h x (by simp)
    have ih' := ih (fun y hy => h y (by simp [hy]))
    simp [deleteOne, hx, ih']

theorem findOneAndUpdate_snd {α : Type} (p : α → Bool) (f : α → α)
    (l : List α) : (findOneAndUpdate p f l).2 = updateFirst p f l := by
  induction l with
  | nil => simp [findOneAndUpdate, updateFirst]
  | cons x xs ih =>
    by_cases hx : p x = true <;> simp [findOneAndUpdate, updateFirst, hx, ih]

theorem map_updateFirst {α β : Type} (p : α → Bool) (f : α → α) (g : α → β)
    (l : List α) (hgf : ∀ a, g (f a) = g a) :
    (updateFirst p f l).map g = l.map g := by
  induction l with
  | nil => rfl
  | cons x xs ih =>
    by_cases hx : p x = true <;> simp [updateFirst, hx, ih, hgf]

theorem deleteOne_snd_sublist {α : Type} (p : α → Bool) (l : List α) :
    (deleteOne p l).2.Sublist l := by
  induction l with
  | nil => simp [deleteOne]
  | cons x xs ih =>
    by_cases hx : p x = true
    · simp only [deleteOne, hx, if_true]
      exact List.sublist_cons_self x xs
    · simpa [deleteOne, hx] using ih.cons₂ x

/-! ### Characterisation of the cart service operations -/

theorem addCartItem_merge_eq (fresh now b : String) (q : ℚ)
    (db : Cart.CartDb) (l₁ l₂ : List Cart.CartItemDocument)
    (e : Cart.CartItemDocument)
    (hv : ObjectId.isValid b = true) (hup : db.up = true)
    (hdocs : db.docs = l₁ ++ e :: l₂)
    (hl₁ : ∀ y ∈ l₁, (y.bookId == toOID b) = false)
    (he : (e.bookId == toOID b) = true)
    (hid : ∀ y ∈ l₁, (y._id == e._id) = false) :
    Cart.addCartItem fresh now ⟨b, q⟩ db =
      .ok (Cart.mapMongoId { e with quantity := e.quantity + q },
        ⟨true, l₁ ++ { e with quantity := e.quantity + q } :: l₂⟩) := by
  have hfind : (l₁ ++ e :: l₂).find? (fun d => d.bookId == toOID b) = some e :=
    find?_middle _ _ _ _ hl₁ he
  have hupd : findOneAndUpdate (fun d => d._id == e._id)
      (fun d => { d with quantity := e.quantity + q }) (l₁ ++ e :: l₂) =
      (some { e with quantity := e.quantity + q },
       l₁ ++ { e with quantity := e.quantity + q } :: l₂) :=
    findOneAndUpdate_middle _ _ _ _ _ hid (by simp)
  simp only [Cart.addCartItem, hv, Bool.not_true, Bool.false_eq_true,
    if_false, Cart.getCartCollection, hup, if_true, hdocs, hfind, hupd]

theorem addCartItem_insert_eq (fresh now b : String) (q : ℚ)
    (db : Cart.CartDb)
    (hv : ObjectId.isValid b = true) (hup : db.up = true)
    (hnone : ∀ d ∈ db.docs, (d.bookId == toOID b) = false)
    (hfresh : ∀ d ∈ db.docs, (d._id == fresh) = false) :
    Cart.addCartItem fresh now ⟨b, q⟩ db =
      .ok (Cart.mapMongoId ⟨fresh, toOID b, q, now⟩,
        ⟨true, db.docs ++ [⟨fresh, toOID b, q, now⟩]⟩) := by
  have hfind : db.docs.find? (fun d => d.bookId == toOID b) = none :=
    find?_none_of_all_false hnone
  have hfind' : (db.docs ++ [(⟨fresh, toOID b, q, now⟩ :
      Cart.CartItemDocument)]).find? (fun d => d._id == fresh) =
      some ⟨fresh, toOID b, q, now⟩ :=
    find?_middle _ _ _ _ hfresh (by simp)
  simp only [Cart.addCartItem, hv, Bool.not_true, Bool.false_eq_true,
    if_false, Cart.getCartCollection, hup, if_true, hfind, hfind']

/-! ### Claim theorems -/

/-- C10: when `addCartItem` merges into an existing cart line, the only
field of that line it changes is `quantity` — its `_id`, `bookId` and
`addedAt` are unchanged, no new line is inserted, and every other line in
the cart is unchanged (first conjunct; the record update `{ e with quantity
:= .. }` keeps all other fields, and the surrounding lines `l₁`, `l₂` are
untouched); a fresh `addedAt` timestamp (`now`) is assigned only on the
insert path (second conjunct). -/
theorem C10_addCartItem_merge_frame :
    (∀ (fresh now b : String) (q : ℚ) (db : Cart.CartDb)
      (l₁ l₂ : List Cart.CartItemDocument) (e : Cart.CartItemDocument),
      ObjectId.isValid b = true → db.up = true →
      db.docs = l₁ ++ e :: l₂ →
      (∀ y ∈ l₁, (y.bookId == toOID b) = false) →
      (e.bookId == toOID b) = true →
      (∀ y ∈ l₁, (y._id == e._id) = false) →
      Cart.addCartItem fresh now ⟨b, q⟩ db =
        .ok (Cart.mapMongoId { e with quantity := e.quantity + q },
          ⟨true, l₁ ++ { e with quantity := e.quantity + q } :: l₂⟩)) ∧
    (∀ (fresh now b : String) (q : ℚ) (db : Cart.CartDb),
      ObjectId.isValid b = true → db.up = true →
      (∀ d ∈ db.docs, (d.bookId == toOID b) = false) →
      (∀ d ∈ db.docs, (d._id == fresh) = false) →
      Cart.addCartItem fresh now ⟨b, q⟩ db =
        .ok (Cart.mapMongoId ⟨fresh, toOID b, q, now⟩,
          ⟨true, db.docs ++ [⟨fresh, toOID b, q, now⟩]⟩)) :=
  ⟨fun fresh now b q db l₁ l₂ e hv hup hdocs hl₁ he hid =>
    addCartItem_merge_eq fresh now b q db l₁ l₂ e hv hup hdocs hl₁ he hid,
   fun fresh now b q db hv hup hnone hfresh =>
    addCartItem_insert_eq fresh now b q db hv hup hnone hfresh⟩

/-- Witness for C10 at concrete inputs: a one-line cart whose line is
merged into, and an empty cart that an insert extends. -/
theorem C10_addCartItem_merge_frame_witness :
    (Cart.addCartItem "cccccccccccccccccccccccc" "T1"
        ⟨"aaaaaaaaaaaaaaaaaaaaaaaa", 2⟩
        ⟨true, [⟨"bbbbbbbbbbbbbbbbbbbbbbbb", "aaaaaaaaaaaaaaaaaaaaaaaa", 5,
          "T0"⟩]⟩ =
      .ok (Cart.mapMongoId ⟨"bbbbbbbbbbbbbbbbbbbbbbbb",
          "aaaaaaaaaaaaaaaaaaaaaaaa", 5 + 2, "T0"⟩,
        ⟨true, [⟨"bbbbbbbbbbbbbbbbbbbbbbbb", "aaaaaaaaaaaaaaaaaaaaaaaa",
          5 + 2, "T0"⟩]⟩)) ∧
    (Cart.addCartItem "cccccccccccccccccccccccc" "T1"
        ⟨"aaaaaaaaaaaaaaaaaaaaaaaa", 2⟩ ⟨true, []⟩ =
      .ok (Cart.mapMongoId ⟨"cccccccccccccccccccccccc",
          toOID "aaaaaaaaaaaaaaaaaaaaaaaa", 2, "T1"⟩,
        ⟨true, [⟨"cccccccccccccccccccccccc",
          toOID "aaaaaaaaaaaaaaaaaaaaaaaa", 2, "T1"⟩]⟩)) := by
  constructor
  · have h := C10_addCartItem_merge_frame.1 "cccccccccccccccccccccccc" "T1"
      "aaaaaaaaaaaaaaaaaaaaaaaa" 2
      ⟨true, [⟨"bbbbbbbbbbbbbbbbbbbbbbbb", "aaaaaaaaaaaaaaaaaaaaaaaa", 5,
        "T0"⟩]⟩
      [] []
      ⟨"bbbbbbbbbbbbbbbbbbbbbbbb", "aaaaaaaaaaaaaaaaaaaaaaaa", 5, "T0"⟩
      (by decide) rfl rfl (by simp) (by decide) (by simp)
    exact h
  · have h := C10_addCartItem_merge_frame.2 "cccccccccccccccccccccccc" "T1"
      "aaaaaaaaaaaaaaaaaaaaaaaa" 2 ⟨true, []⟩
      (by decide) rfl (by simp) (by simp)
    simpa using h

/-- C1: for a valid `bookId` `b`, positive quantities and a starting cart
with at most one line for `b`, `addCartItem(b, q1)` followed by
`addCartItem(b, q2)` leaves exactly one cart line for `b`, whose quantity
is the starting quantity for `b` (0 if absent) plus `q1` plus `q2`. -/
theorem C1_addOrMerge_additive (b : String) (q1 q2 : ℚ)
    (f1 f2 now1 now2 : String) (db : Cart.CartDb)
    (hv : ObjectId.isValid b = true) (_hq1 : 0 < q1) (_hq2 : 0 < q2)
    (hup : db.up = true)
    (hnodup : (db.docs.map (fun d => d._id)).Nodup)
    (hatmost : db.docs.countP (fun d => d.bookId == toOID b) ≤ 1)
    (hf1 : ∀ d ∈ db.docs, (d._id == f1) = false) :
    ∃ item1 db1 item2 db2,
      Cart.addCartItem f1 now1 ⟨b, q1⟩ db = .ok (item1, db1) ∧
      Cart.addCartItem f2 now2 ⟨b, q2⟩ db1 = .ok (item2, db2) ∧
      db2.docs.countP (fun d => d.bookId == toOID b) = 1 ∧
      Cart.bookQty b db2.docs = Cart.bookQty b db.docs + q1 + q2 := by
  cases hfind : db.docs.find? (fun d => d.bookId == toOID b) with
  | none =>
    have hnone : ∀ d ∈ db.docs, (d.bookId == toOID b) = false := by
      intro d hd
      have := List.find?_eq_none.mp hfind d hd
      simpa using this
    have h1 := addCartItem_insert_eq f1 now1 b q1 db hv hup hnone hf1
    have h2 := addCartItem_merge_eq f2 now2 b q2
      ⟨true, db.docs ++ [⟨f1, toOID b, q1, now1⟩]⟩ db.docs []
      ⟨f1, toOID b, q1, now1⟩ hv rfl rfl hnone (by simp) hf1
    refine ⟨_, _, _, _, h1, h2, ?_, ?_⟩
    · have hz : db.docs.countP (fun d => d.bookId == toOID b) = 0 :=
        List.countP_eq_zero.mpr (fun d hd => by simp [hnone d hd])
      simp [List.countP_append, List.countP_cons, hz]
    · have hfind2 : (db.docs ++
          [({ _id := f1, bookId := toOID b, quantity := q1 + q2,
              addedAt := now1 } : Cart.CartItemDocument)]).find?
          (fun d => d.bookId == toOID b) =
          some { _id := f1, bookId := toOID b, quantity := q1 + q2,
                 addedAt := now1 } :=
        find?_middle _ _ _ _ hnone (by simp)
      simp [Cart.bookQty, hfind, hfind2]
  | some e =>
    obtain ⟨l₁, l₂, hdocs, hl₁⟩ := find?_some_split hfind
    have hpe : (e.bookId == toOID b) = true := by
      have h := List.find?_some hfind
      simpa using h
    have hidl₁ : ∀ y ∈ l₁, (y._id == e._id) = false := by
      rw [hdocs] at hnodup
      intro y hy
      have hmap : (l₁.map (fun d => d._id) ++
          e._id :: l₂.map (fun d => d._id)).Nodup := by
        simpa using hnodup
      have hnotmem : e._id ∉ l₁.map (fun d => d._id) := by
        have hcons := List.nodup_middle.mp hmap
        intro hmem
        exact (List.nodup_cons.mp hcons).1 (by simp [hmem])
      have : y._id ≠ e._id := fun hEq =>
        hnotmem (hEq ▸ List.mem_map_of_mem (fun d => d._id) hy)
      simpa using this
    have h1 := addCartItem_merge_eq f1 now1 b q1 db l₁ l₂ e hv hup hdocs
      hl₁ hpe hidl₁
    have h2 := addCartItem_merge_eq f2 now2 b q2
      ⟨true, l₁ ++ { e with quantity := e.quantity + q1 } :: l₂⟩ l₁ l₂
      { e with quantity := e.quantity + q1 } hv rfl rfl hl₁ hpe hidl₁
    refine ⟨_, _, _, _, h1, h2, ?_, ?_⟩
    · have hz₁ : l₁.countP (fun d => d.bookId == toOID b) = 0 :=
        List.countP_eq_zero.mpr (fun d hd => by simp [hl₁ d hd])
      have hz₂ : l₂.countP (fun d => d.bookId == toOID b) = 0 := by
        rw [hdocs] at hatmost
        have h' : l₁.countP (fun d => d.bookId == toOID b) +
            (l₂.countP (fun d => d.bookId == toOID b) + 1) ≤ 1 := by
          simpa [List.countP_append, List.countP_cons, hpe] using hatmost
        omega
      simp [List.countP_append, List.countP_cons, hz₁, hz₂, hpe]
    · have hfind1 : (l₁ ++ e :: l₂).find? (fun d => d.bookId == toOID b) =
          some e := find?_middle _ _ _ _ hl₁ hpe
      have hfind2 : (l₁ ++ { e with quantity := e.quantity + q1 + q2 } ::
          l₂).find? (fun d => d.bookId == toOID b) =
          some { e with quantity := e.quantity + q1 + q2 } :=
        find?_middle _ _ _ _ hl₁ (by simpa using hpe)
      simp [Cart.bookQty, hdocs, hfind1, hfind2]

/-- Witness for C1 at concrete inputs: starting from a cart that already
holds quantity 5 of the book, adding 2 then 3 yields one line with
quantity 10. -/
theorem C1_addOrMerge_additive_witness :
    ∃ item1 db1 item2 db2,
      Cart.addCartItem "cccccccccccccccccccccccc" "T1"
          ⟨"aaaaaaaaaaaaaaaaaaaaaaaa", 2⟩
          ⟨true, [⟨"bbbbbbbbbbbbbbbbbbbbbbbb", "aaaaaaaaaaaaaaaaaaaaaaaa",
            5, "T0"⟩]⟩ = .ok (item1, db1) ∧
      Cart.addCartItem "dddddddddddddddddddddddd" "T2"
          ⟨"aaaaaaaaaaaaaaaaaaaaaaaa", 3⟩ db1 = .ok (item2, db2) ∧
      db2.docs.countP
        (fun d => d.bookId == toOID "aaaaaaaaaaaaaaaaaaaaaaaa") = 1 ∧
      Cart.bookQty "aaaaaaaaaaaaaaaaaaaaaaaa" db2.docs =
        Cart.bookQty "aaaaaaaaaaaaaaaaaaaaaaaa"
          [⟨"bbbbbbbbbbbbbbbbbbbbbbbb", "aaaaaaaaaaaaaaaaaaaaaaaa", 5,
            "T0"⟩] + 2 + 3 :=
  C1_addOrMerge_additive "aaaaaaaaaaaaaaaaaaaaaaaa" 2 3
    "cccccccccccccccccccccccc" "dddddddddddddddddddddddd" "T1" "T2"
    ⟨true, [⟨"bbbbbbbbbbbbbbbbbbbbbbbb", "aaaaaaaaaaaaaaaaaaaaaaaa", 5,
      "T0"⟩]⟩
    (by decide) (by norm_num) (by norm_num) rfl (by decide) (by decide)
    (by decide)

theorem addCartItem_preserves_inv (fresh now : String)
    (inp : Cart.CartAddInput) (db : Cart.CartDb)
    (hinv : Cart.cartInv db.docs) :
    Cart.cartInv (Cart.docsAfter db (Cart.addCartItem fresh now inp db)) := by
  by_cases hv : ObjectId.isValid inp.bookId = true
  · by_cases hup : db.up = true
    · cases hfind : db.docs.find? (fun d => d.bookId == toOID inp.bookId) with
      | some e =>
        cases hfu : findOneAndUpdate (fun d => d._id == e._id)
            (fun d => { d with quantity := e.quantity + inp.quantity })
            db.docs with
        | mk r docs' =>
          have hdocs' : docs' = updateFirst (fun d => d._id == e._id)
              (fun d => { d with quantity := e.quantity + inp.quantity })
              db.docs := by
            have hsnd := findOneAndUpdate_snd (fun d => d._id == e._id)
              (fun d => { d with quantity := e.quantity + inp.quantity })
              db.docs
            rw [hfu] at hsnd
            exact hsnd
          cases r with
          | none =>
            simp only [Cart.addCartItem, hv, Bool.not_true,
              Bool.false_eq_true, if_false, Cart.getCartCollection, hup,
              if_true, hfind, hfu, Cart.docsAfter]
            exact hinv
          | some u =>
            simp only [Cart.addCartItem, hv, Bool.not_true,
              Bool.false_eq_true, if_false, Cart.getCartCollection, hup,
              if_true, hfind, hfu, Cart.docsAfter]
            have hmap := map_updateFirst (fun d => d._id == e._id)
              (fun d => { d with quantity := e.quantity + inp.quantity })
              (fun d => d.bookId) db.docs (fun a => rfl)
            rw [hdocs']
            simp only [Cart.cartInv]
            rw [hmap]
            exact hinv
      | none =>
        have hmem : toOID inp.bookId ∉
            db.docs.map (fun d => d.bookId) := by
          intro hmem
          obtain ⟨d, hd, hde⟩ := List.mem_map.mp hmem
          have := List.find?_eq_none.mp hfind d hd
          simp [hde] at this
        cases hfind2 : (db.docs ++
            [(⟨fresh, toOID inp.bookId, inp.quantity, now⟩ :
              Cart.CartItemDocument)]).find? (fun d => d._id == fresh) with
        | none =>
          simp only [Cart.addCartItem, hv, Bool.not_true, Bool.false_eq_true,
            if_false, Cart.getCartCollection, hup, if_true, hfind, hfind2,
            Cart.docsAfter]
          exact hinv
        | some u =>
          simp only [Cart.addCartItem, hv, Bool.not_true, Bool.false_eq_true,
            if_false, Cart.getCartCollection, hup, if_true, hfind, hfind2,
            Cart.docsAfter]
          unfold Cart.cartInv at hinv ⊢
          simp only [List.map_append, List.map_cons, List.map_nil]
          rw [List.nodup_append]
          exact ⟨hinv, by simp, by simpa using hmem⟩
    · have hup' : db.up = false := by simpa using hup
      simp only [Cart.addCartItem, hv, Bool.not_true, Bool.false_eq_true,
        if_false, Cart.getCartCollection, hup', Cart.docsAfter]
      exact hinv
  · have hv' : ObjectId.isValid inp.bookId = false := by simpa using hv
    simp only [Cart.addCartItem, hv', Bool.not_false, if_true,
      Cart.docsAfter]
    exact hinv

theorem removeCartItem_docsAfter_sublist (id : String) (db : Cart.CartDb) :
    (Cart.docsAfter db (Cart.removeCartItem id db)).Sublist db.docs := by
  by_cases hv : ObjectId.isValid id = true
  · by_cases hup : db.up = true
    · simp only [Cart.removeCartItem, hv, Bool.not_true, Bool.false_eq_true,
        if_false, Cart.getCartCollection, hup, if_true, Cart.docsAfter]
      exact deleteOne_snd_sublist _ _
    · have hup' : db.up = false := by simpa using hup
      simp only [Cart.removeCartItem, hv, Bool.not_true, Bool.false_eq_true,
        if_false, Cart.getCartCollection, hup', Cart.docsAfter]
      exact List.Sublist.refl _
  · have hv' : ObjectId.isValid id = false := by simpa using hv
    simp only [Cart.removeCartItem, hv', Bool.not_false, if_true,
      Cart.docsAfter]
    exact List.Sublist.refl _

theorem removeCartItem_preserves_inv (id : String) (db : Cart.CartDb)
    (hinv : Cart.cartInv db.docs) :
    Cart.cartInv (Cart.docsAfter db (Cart.removeCartItem id db)) :=
  ((removeCartItem_docsAfter_sublist id db).map (fun d => d.bookId)).nodup
    hinv

theorem updateCartItemQuantity_preserves_inv (id : String) (q : ℚ)
    (db : Cart.CartDb) (hinv : Cart.cartInv db.docs) :
    Cart.cartInv
      (Cart.docsAfter db (Cart.updateCartItemQuantity id q db)) := by
  by_cases hv : ObjectId.isValid id = true
  · by_cases hq : q ≤ 0
    · cases hrem : Cart.removeCartItem id db with
      | error e =>
        simp only [Cart.updateCartItemQuantity, hv, Bool.not_true,
          Bool.false_eq_true, if_false, hq, if_true, hrem, Cart.docsAfter]
        exact hinv
      | ok r =>
        have hsub := removeCartItem_docsAfter_sublist id db
        rw [hrem] at hsub
        simp only [Cart.updateCartItemQuantity, hv, Bool.not_true,
          Bool.false_eq_true, if_false, hq, if_true, hrem, Cart.docsAfter]
        simp only [Cart.docsAfter] at hsub
        exact ((hsub.map (fun d => d.bookId)).nodup hinv)
    · by_cases hup : db.up = true
      · cases hfu : findOneAndUpdate (fun d => d._id == toOID id)
            (fun d => { d with quantity := q }) db.docs with
        | mk r docs' =>
          have hdocs' : docs' = updateFirst (fun d => d._id == toOID id)
              (fun d => { d with quantity := q }) db.docs := by
            have hsnd := findOneAndUpdate_snd (fun d => d._id == toOID id)
              (fun d => { d with quantity := q }) db.docs
            rw [hfu] at hsnd
            exact hsnd
          simp only [Cart.updateCartItemQuantity, hv, Bool.not_true,
            Bool.false_eq_true, if_false, hq, Cart.getCartCollection, hup,
            if_true, hfu, Cart.docsAfter]
          have hmap := map_updateFirst (fun d => d._id == toOID id)
            (fun d => { d with quantity := q }) (fun d => d.bookId) db.docs
            (fun a => rfl)
          rw [hdocs']
          simp only [Cart.cartInv]
          rw [hmap]
          exact hinv
      · have hup' : db.up = false := by simpa using hup
        simp only [Cart.updateCartItemQuantity, hv, Bool.not_true,
          Bool.false_eq_true, if_false, hq, Cart.getCartCollection, hup',
          Cart.docsAfter]
        exact hinv
  · have hv' : ObjectId.isValid id = false := by simpa using hv
    simp only [Cart.updateCartItemQuantity, hv', Bool.not_false, if_true,
      Cart.docsAfter]
    exact hinv

theorem clearCart_preserves_inv (db : Cart.CartDb)
    (hinv : Cart.cartInv db.docs) :
    Cart.cartInv (Cart.docsAfter db (Cart.clearCart db)) := by
  by_cases hup : db.up = true
  · simp only [Cart.clearCart, Cart.getCartCollection, hup, if_true,
      Cart.docsAfter, Cart.cartInv, List.map_nil]
    exact List.nodup_nil
  · have hup' : db.up = false := by simpa using hup
    simp only [Cart.clearCart, Cart.getCartCollection, hup', Bool.false_eq_true,
      if_false, Cart.docsAfter]
    exact hinv

/-- C2: the predicate "at most one cart line per distinct book identifier"
(no duplicate `bookId` among the cart documents) holds for the empty cart
and is preserved by every cart operation (`addCartItem`,
`updateCartItemQuantity`, `removeCartItem`, `clearCart`), whatever its
outcome. -/
theorem C2_cart_uniqueness_invariant :
    Cart.cartInv [] ∧
    (∀ (fresh now : String) (inp : Cart.CartAddInput) (db : Cart.CartDb),
      Cart.cartInv db.docs →
      Cart.cartInv (Cart.docsAfter db (Cart.addCartItem fresh now inp db))) ∧
    (∀ (id : String) (q : ℚ) (db : Cart.CartDb),
      Cart.cartInv db.docs →
      Cart.cartInv
        (Cart.docsAfter db (Cart.updateCartItemQuantity id q db))) ∧
    (∀ (id : String) (db : Cart.CartDb),
      Cart.cartInv db.docs →
      Cart.cartInv (Cart.docsAfter db (Cart.removeCartItem id db))) ∧
    (∀ (db : Cart.CartDb),
      Cart.cartInv db.docs →
      Cart.cartInv (Cart.docsAfter db (Cart.clearCart db))) :=
  ⟨List.nodup_nil,
   addCartItem_preserves_inv,
   updateCartItemQuantity_preserves_inv,
   removeCartItem_preserves_inv,
   clearCart_preserves_inv⟩

/-- Witness for C2 at concrete inputs: the invariant holds after each
operation run on a concrete two-line cart. -/
theorem C2_cart_uniqueness_invariant_witness :
    Cart.cartInv (Cart.docsAfter
      ⟨true, [⟨"bbbbbbbbbbbbbbbbbbbbbbbb", "aaaaaaaaaaaaaaaaaaaaaaaa", 5,
        "T0"⟩]⟩
      (Cart.addCartItem "cccccccccccccccccccccccc" "T1"
        ⟨"aaaaaaaaaaaaaaaaaaaaaaaa", 2⟩
        ⟨true, [⟨"bbbbbbbbbbbbbbbbbbbbbbbb", "aaaaaaaaaaaaaaaaaaaaaaaa", 5,
          "T0"⟩]⟩)) ∧
    Cart.cartInv (Cart.docsAfter
      ⟨true, [⟨"bbbbbbbbbbbbbbbbbbbbbbbb", "aaaaaaaaaaaaaaaaaaaaaaaa", 5,
        "T0"⟩]⟩
      (Cart.updateCartItemQuantity "bbbbbbbbbbbbbbbbbbbbbbbb" 4
        ⟨true, [⟨"bbbbbbbbbbbbbbbbbbbbbbbb", "aaaaaaaaaaaaaaaaaaaaaaaa", 5,
          "T0"⟩]⟩)) ∧
    Cart.cartInv (Cart.docsAfter
      ⟨true, [⟨"bbbbbbbbbbbbbbbbbbbbbbbb", "aaaaaaaaaaaaaaaaaaaaaaaa", 5,
        "T0"⟩]⟩
      (Cart.removeCartItem "bbbbbbbbbbbbbbbbbbbbbbbb"
        ⟨true, [⟨"bbbbbbbbbbbbbbbbbbbbbbbb", "aaaaaaaaaaaaaaaaaaaaaaaa", 5,
          "T0"⟩]⟩)) ∧
    Cart.cartInv (Cart.docsAfter
      ⟨true, [⟨"bbbbbbbbbbbbbbbbbbbbbbbb", "aaaaaaaaaaaaaaaaaaaaaaaa", 5,
        "T0"⟩]⟩
      (Cart.clearCart
        ⟨true, [⟨"bbbbbbbbbbbbbbbbbbbbbbbb", "aaaaaaaaaaaaaaaaaaaaaaaa", 5,
          "T0"⟩]⟩)) :=
  ⟨C2_cart_uniqueness_invariant.2.1 "cccccccccccccccccccccccc" "T1"
    ⟨"aaaaaaaaaaaaaaaaaaaaaaaa", 2⟩ _ (by decide),
   C2_cart_uniqueness_invariant.2.2.1 "bbbbbbbbbbbbbbbbbbbbbbbb" 4 _
    (by decide),
   C2_cart_uniqueness_invariant.2.2.2.1 "bbbbbbbbbbbbbbbbbbbbbbbb" _
    (by decide),
   C2_cart_uniqueness_invariant.2.2.2.2 _ (by decide)⟩

/-- C5: a malformed identifier (one failing the `ObjectId.isValid` format
check) makes every `getById`/`update`/`delete` accessor (books, reviews,
cart) and `getReviewsByBookId` return its "not found" outcome
(`none`/`false`) with the stored state unchanged, without any storage
access — in particular, never raising a storage-layer fault (the result is
`ok` even when storage is down). -/
theorem C5_malformed_id_short_circuit (id : String)
    (hv : ObjectId.isValid id = false) :
    (∀ bdb : Books.BooksDb, Books.getBookById id bdb = .ok none) ∧
    (∀ (bdb : Books.BooksDb) (u : Books.BookUpdates),
      Books.updateBook id u bdb = .ok (none, bdb)) ∧
    (∀ bdb : Books.BooksDb, Books.deleteBook id bdb = .ok (false, bdb)) ∧
    (∀ rdb : Reviews.ReviewsDb, Reviews.getReviewById id rdb = .ok none) ∧
    (∀ rdb : Reviews.ReviewsDb,
      Reviews.getReviewsByBookId id rdb = .ok none) ∧
    (∀ (rdb : Reviews.ReviewsDb) (u : Reviews.ReviewUpdates),
      Reviews.updateReview id u rdb = .ok (none, rdb)) ∧
    (∀ rdb : Reviews.ReviewsDb,
      Reviews.deleteReview id rdb = .ok (false, rdb)) ∧
    (∀ (q : ℚ) (cdb : Cart.CartDb),
      Cart.updateCartItemQuantity id q cdb = .ok (none, cdb)) ∧
    (∀ cdb : Cart.CartDb, Cart.removeCartItem id cdb = .ok (false, cdb)) := by
  refine ⟨fun bdb => ?_, fun bdb u => ?_, fun bdb => ?_, fun rdb => ?_,
    fun rdb => ?_, fun rdb u => ?_, fun rdb => ?_, fun q cdb => ?_,
    fun cdb => ?_⟩
  · simp [Books.getBookById, hv]
  · simp [Books.updateBook, hv]
  · simp [Books.deleteBook, hv]
  · simp [Reviews.getReviewById, hv]
  · simp [Reviews.getReviewsByBookId, hv]
  · simp [Reviews.updateReview, hv]
  · simp [Reviews.deleteReview, hv]
  · simp [Cart.updateCartItemQuantity, hv]
  · simp [Cart.removeCartItem, hv]

/-- Witness for C5 at the concrete malformed identifier `"xyz"` (and, for
the state arguments, concrete empty stores with storage down, showing no
storage fault is raised). -/
theorem C5_malformed_id_short_circuit_witness :
    (∀ bdb : Books.BooksDb, Books.getBookById "xyz" bdb = .ok none) ∧
    (∀ (bdb : Books.BooksDb) (u : Books.BookUpdates),
      Books.updateBook "xyz" u bdb = .ok (none, bdb)) ∧
    (∀ bdb : Books.BooksDb, Books.deleteBook "xyz" bdb = .ok (false, bdb)) ∧
    (∀ rdb : Reviews.ReviewsDb, Reviews.getReviewById "xyz" rdb = .ok none) ∧
    (∀ rdb : Reviews.ReviewsDb,
      Reviews.getReviewsByBookId "xyz" rdb = .ok none) ∧
    (∀ (rdb : Reviews.ReviewsDb) (u : Reviews.ReviewUpdates),
      Reviews.updateReview "xyz" u rdb = .ok (none, rdb)) ∧
    (∀ rdb : Reviews.ReviewsDb,
      Reviews.deleteReview "xyz" rdb = .ok (false, rdb)) ∧
    (∀ (q : ℚ) (cdb : Cart.CartDb),
      Cart.updateCartItemQuantity "xyz" q cdb = .ok (none, cdb)) ∧
    (∀ cdb : Cart.CartDb, Cart.removeCartItem "xyz" cdb = .ok (false, cdb)) :=
  C5_malformed_id_short_circuit "xyz" (by decide)

/-- C7: `removeCartItem` never throws for any input string (when storage
itself is reachable): it returns `true` exactly when a line with the
translated identifier existed (and was deleted), and `false` both for a
malformed identifier and for a well-formed but absent one — the two cases
are indistinguishable in the return value — leaving the cart unchanged in
both failure cases. -/
theorem C7_remove_total_false_indistinguishable (id : String)
    (db : Cart.CartDb) (hup : db.up = true) :
    ∃ b db', Cart.removeCartItem id db = .ok (b, db') ∧
      (b = true ↔ ObjectId.isValid id = true ∧
        ∃ d ∈ db.docs, d._id = toOID id) ∧
      (b = false → db' = db) := by
  obtain ⟨up, docs⟩ := db
  have hup' : up = true := hup
  subst hup'
  by_cases hv : ObjectId.isValid id = true
  · cases hfind : docs.find? (fun d => d._id == toOID id) with
    | none =>
      have hnone : ∀ d ∈ docs, (d._id == toOID id) = false := by
        intro d hd
        have h := List.find?_eq_none.mp hfind d hd
        simpa using h
      have hdel := deleteOne_none hnone
      refine ⟨false, ⟨true, docs⟩, ?_, ?_, fun _ => rfl⟩
      · simp only [Cart.removeCartItem, hv, Bool.not_true, Bool.false_eq_true,
          if_false, Cart.getCartCollection, if_true, hdel]
        rfl
      · simp only [Bool.false_eq_true, false_iff, not_and]
        intro _ hex
        obtain ⟨d, hd, hde⟩ := hex
        have h := hnone d hd
        simp [hde] at h
    | some e =>
      obtain ⟨l₁, l₂, hdocs, hl₁⟩ := find?_some_split hfind
      have hpe : (e._id == toOID id) = true := by
        have h := List.find?_some hfind
        simpa using h
      have hdel : deleteOne (fun d => d._id == toOID id) docs =
          (1, l₁ ++ l₂) := by
        rw [hdocs]
        exact deleteOne_middle _ _ _ _ hl₁ hpe
      refine ⟨true, ⟨true, l₁ ++ l₂⟩, ?_, ?_, fun h => nomatch h⟩
      · simp only [Cart.removeCartItem, hv, Bool.not_true, Bool.false_eq_true,
          if_false, Cart.getCartCollection, if_true, hdel]
        rfl
      · simp only [true_iff]
        refine ⟨hv, e, ?_, by simpa using hpe⟩
        rw [hdocs]
        simp
  · have hv' : ObjectId.isValid id = false := by simpa using hv
    refine ⟨false, ⟨true, docs⟩, ?_, ?_, fun _ => rfl⟩
    · simp [Cart.removeCartItem, hv']
    · simp [hv']

/-- Witness for C7 at concrete inputs: removing a present line from a
concrete one-line cart. -/
theorem C7_remove_total_false_indistinguishable_witness :
    ∃ b db', Cart.removeCartItem "bbbbbbbbbbbbbbbbbbbbbbbb"
        ⟨true, [⟨"bbbbbbbbbbbbbbbbbbbbbbbb", "aaaaaaaaaaaaaaaaaaaaaaaa", 5,
          "T0"⟩]⟩ = .ok (b, db') ∧
      (b = true ↔ ObjectId.isValid "bbbbbbbbbbbbbbbbbbbbbbbb" = true ∧
        ∃ d ∈ [(⟨"bbbbbbbbbbbbbbbbbbbbbbbb", "aaaaaaaaaaaaaaaaaaaaaaaa", 5,
          "T0"⟩ : Cart.CartItemDocument)],
          d._id = toOID "bbbbbbbbbbbbbbbbbbbbbbbb") ∧
      (b = false →
        db' = ⟨true, [⟨"bbbbbbbbbbbbbbbbbbbbbbbb",
          "aaaaaaaaaaaaaaaaaaaaaaaa", 5, "T0"⟩]⟩) :=
  C7_remove_total_false_indistinguishable "bbbbbbbbbbbbbbbbbbbbbbbb"
    ⟨true, [⟨"bbbbbbbbbbbbbbbbbbbbbbbb", "aaaaaaaaaaaaaaaaaaaaaaaa", 5,
      "T0"⟩]⟩ rfl

theorem deleteOne_absent (oid : OID) (docs : List Cart.CartItemDocument)
    (hnodup : (docs.map (fun d => d._id)).Nodup) :
    ∀ d ∈ (deleteOne (fun d => d._id == oid) docs).2,
      (d._id == oid) = false := by
  cases hfind : docs.find? (fun d => d._id == oid) with
  | none =>
    have hnone : ∀ d ∈ docs, (d._id == oid) = false := by
      intro d hd
      have h := List.find?_eq_none.mp hfind d hd
      simpa using h
    rw [deleteOne_none hnone]
    exact hnone
  | some e =>
    obtain ⟨l₁, l₂, hdocs, hl₁⟩ := find?_some_split hfind
    have hpe : (e._id == oid) = true := by
      have h := List.find?_some hfind
      simpa using h
    have heq : e._id = oid := by simpa using hpe
    rw [hdocs, deleteOne_middle _ _ _ _ hl₁ hpe]
    intro d hd
    rcases List.mem_append.mp hd with hd₁ | hd₂
    · exact hl₁ d hd₁
    · rw [hdocs] at hnodup
      have hmap : (l₁.map (fun d => d._id) ++
          e._id :: l₂.map (fun d => d._id)).Nodup := by
        simpa using hnodup
      have hcons := List.nodup_middle.mp hmap
      have hnot : e._id ∉ l₂.map (fun d => d._id) := by
        intro hmem
        exact (List.nodup_cons.mp hcons).1 (by simp [hmem])
      have : d._id ≠ oid := by
        intro hde
        exact hnot (by
          rw [← heq] at hde
          exact hde ▸ List.mem_map_of_mem (fun d => d._id) hd₂)
      simpa using this

/-- C6: for a well-formed `cartLineId`: a quantity `q ≤ 0` makes
`updateCartItemQuantity` produce exactly the cart state `removeCartItem`
produces and return no line, with the removed line absent from a
subsequent `getCart`; a quantity `q > 0` overwrites (not adds to) the
matching line's quantity and returns the updated line, or returns `none`
with the cart unchanged when no line matches. -/
theorem C6_setQuantity_remove_or_overwrite (id : String) (q : ℚ)
    (db : Cart.CartDb) (hv : ObjectId.isValid id = true)
    (hup : db.up = true)
    (hnodup : (db.docs.map (fun d => d._id)).Nodup) :
    (q ≤ 0 → ∃ rb db',
      Cart.removeCartItem id db = .ok (rb, db') ∧
      Cart.updateCartItemQuantity id q db = .ok (none, db') ∧
      ∃ items, Cart.getCart db' = .ok items ∧
        ∀ it ∈ items, it.id ≠ toOID id) ∧
    (0 < q → ∀ (l₁ l₂ : List Cart.CartItemDocument)
      (e : Cart.CartItemDocument), db.docs = l₁ ++ e :: l₂ →
      (∀ y ∈ l₁, (y._id == toOID id) = false) →
      (e._id == toOID id) = true →
      Cart.updateCartItemQuantity id q db =
        .ok (some (Cart.mapMongoId { e with quantity := q }),
          ⟨true, l₁ ++ { e with quantity := q } :: l₂⟩)) ∧
    (0 < q → (∀ d ∈ db.docs, (d._id == toOID id) = false) →
      Cart.updateCartItemQuantity id q db = .ok (none, db)) := by
  obtain ⟨up, docs⟩ := db
  have hup' : up = true := hup
  subst hup'
  refine ⟨fun hq => ?_, fun hq l₁ l₂ e hdocs hl₁ he => ?_,
    fun hq hnone => ?_⟩
  · cases hdel : deleteOne (fun d => d._id == toOID id) docs with
    | mk n docs' =>
      have hrem : Cart.removeCartItem id ⟨true, docs⟩ =
          .ok (n == 1, ⟨true, docs'⟩) := by
        simp only [Cart.removeCartItem, hv, Bool.not_true, Bool.false_eq_true,
          if_false, Cart.getCartCollection, if_true, hdel]
      have habs : ∀ d ∈ docs', (d._id == toOID id) = false := by
        have h := deleteOne_absent (toOID id) docs (by simpa using hnodup)
        rw [hdel] at h
        exact h
      refine ⟨n == 1, ⟨true, docs'⟩, hrem, ?_, ?_⟩
      · simp only [Cart.updateCartItemQuantity, hv, Bool.not_true,
          Bool.false_eq_true, if_false, if_pos hq, hrem]
      · refine ⟨docs'.map Cart.mapMongoId, by
          simp [Cart.getCart, Cart.getCartCollection], ?_⟩
        intro it hit
        obtain ⟨d, hd, rfl⟩ := List.mem_map.mp hit
        have h := habs d hd
        simpa [Cart.mapMongoId] using h
  · have hq' : ¬ q ≤ 0 := not_le.mpr hq
    have hdocs' : docs = l₁ ++ e :: l₂ := hdocs
    subst hdocs'
    have hfu := findOneAndUpdate_middle (fun d => d._id == toOID id)
      (fun d => { d with quantity := q }) l₁ l₂ e hl₁ he
    simp only [Cart.updateCartItemQuantity, hv, Bool.not_true,
      Bool.false_eq_true, if_false, if_neg hq', Cart.getCartCollection,
      if_true, hfu]
    rfl
  · have hq' : ¬ q ≤ 0 := not_le.mpr hq
    have hfu := findOneAndUpdate_none (fun d => { d with quantity := q })
      hnone
    simp only [Cart.updateCartItemQuantity, hv, Bool.not_true,
      Bool.false_eq_true, if_false, if_neg hq', Cart.getCartCollection,
      if_true, hfu]
    rfl

/-- Witness for C6 at concrete inputs: quantity 0 removes the only line of
a concrete one-line cart (and the other two conjuncts hold vacuously). -/
theorem C6_setQuantity_remove_or_overwrite_witness :
    ((0 : ℚ) ≤ 0 → ∃ rb db',
      Cart.removeCartItem "bbbbbbbbbbbbbbbbbbbbbbbb"
        ⟨true, [⟨"bbbbbbbbbbbbbbbbbbbbbbbb", "aaaaaaaaaaaaaaaaaaaaaaaa", 5,
          "T0"⟩]⟩ = .ok (rb, db') ∧
      Cart.updateCartItemQuantity "bbbbbbbbbbbbbbbbbbbbbbbb" 0
        ⟨true, [⟨"bbbbbbbbbbbbbbbbbbbbbbbb", "aaaaaaaaaaaaaaaaaaaaaaaa", 5,
          "T0"⟩]⟩ = .ok (none, db') ∧
      ∃ items, Cart.getCart db' = .ok items ∧
        ∀ it ∈ items, it.id ≠ toOID "bbbbbbbbbbbbbbbbbbbbbbbb") ∧
    ((0 : ℚ) < 0 → ∀ (l₁ l₂ : List Cart.CartItemDocument)
      (e : Cart.CartItemDocument),
      [(⟨"bbbbbbbbbbbbbbbbbbbbbbbb", "aaaaaaaaaaaaaaaaaaaaaaaa", 5, "T0"⟩ :
        Cart.CartItemDocument)] = l₁ ++ e :: l₂ →
      (∀ y ∈ l₁, (y._id == toOID "bbbbbbbbbbbbbbbbbbbbbbbb") = false) →
      (e._id == toOID "bbbbbbbbbbbbbbbbbbbbbbbb") = true →
      Cart.updateCartItemQuantity "bbbbbbbbbbbbbbbbbbbbbbbb" 0
        ⟨true, [⟨"bbbbbbbbbbbbbbbbbbbbbbbb", "aaaaaaaaaaaaaaaaaaaaaaaa", 5,
          "T0"⟩]⟩ =
        .ok (some (Cart.mapMongoId { e with quantity := 0 }),
          ⟨true, l₁ ++ { e with quantity := 0 } :: l₂⟩)) ∧
    ((0 : ℚ) < 0 →
      (∀ d ∈ [(⟨"bbbbbbbbbbbbbbbbbbbbbbbb", "aaaaaaaaaaaaaaaaaaaaaaaa", 5,
        "T0"⟩ : Cart.CartItemDocument)],
        (d._id == toOID "bbbbbbbbbbbbbbbbbbbbbbbb") = false) →
      Cart.updateCartItemQuantity "bbbbbbbbbbbbbbbbbbbbbbbb" 0
        ⟨true, [⟨"bbbbbbbbbbbbbbbbbbbbbbbb", "aaaaaaaaaaaaaaaaaaaaaaaa", 5,
          "T0"⟩]⟩ =
        .ok (none, ⟨true, [⟨"bbbbbbbbbbbbbbbbbbbbbbbb",
          "aaaaaaaaaaaaaaaaaaaaaaaa", 5, "T0"⟩]⟩)) :=
  C6_setQuantity_remove_or_overwrite "bbbbbbbbbbbbbbbbbbbbbbbb" 0
    ⟨true, [⟨"bbbbbbbbbbbbbbbbbbbbbbbb", "aaaaaaaaaaaaaaaaaaaaaaaa", 5,
      "T0"⟩]⟩ (by decide) rfl (by decide)

/-- C9: `createBook` on a complete attribute record followed by
`getBookById` of the returned identifier yields a record equal to the
input plus the assigned identifier. -/
theorem C9_create_getById_roundtrip (fresh : OID) (input : Books.BookData)
    (db : Books.BooksDb) (hup : db.up = true)
    (hvf : ObjectId.isValid fresh = true) (hcan : toOID fresh = fresh)
    (hfr : ∀ d ∈ db.docs, (d._id == fresh) = false) :
    ∃ book db', Books.createBook fresh input db = .ok (book, db') ∧
      book = ⟨fresh, input⟩ ∧
      Books.getBookById book.id db' = .ok (some book) := by
  obtain ⟨up, docs⟩ := db
  have hup' : up = true := hup
  subst hup'
  have hfind : (docs ++ [(⟨fresh, input⟩ : Books.BookDoc)]).find?
      (fun d => d._id == fresh) = some ⟨fresh, input⟩ :=
    find?_middle _ _ _ _ hfr (by simp)
  refine ⟨⟨fresh, input⟩, ⟨true, docs ++ [⟨fresh, input⟩]⟩, ?_, rfl, ?_⟩
  · simp only [Books.createBook, Books.getBooksCollection, if_true, hfind]
    rfl
  · simp only [Books.getBookById, hvf, Bool.not_true, Bool.false_eq_true,
      if_false, Books.getBooksCollection, if_true, hcan, hfind]
    rfl

/-- Witness for C9 at a concrete fresh identifier and book record over an
empty catalog. -/
theorem C9_create_getById_roundtrip_witness :
    ∃ book db', Books.createBook "ffffffffffffffffffffffff"
        ⟨"t", "a", "d", 10, "img", "isbn", ["g"], ["x"], "2020", 100, "en",
          "p", 4, 2, true, false⟩ ⟨true, []⟩ = .ok (book, db') ∧
      book = ⟨"ffffffffffffffffffffffff",
        ⟨"t", "a", "d", 10, "img", "isbn", ["g"], ["x"], "2020", 100, "en",
          "p", 4, 2, true, false⟩⟩ ∧
      Books.getBookById book.id db' = .ok (some book) :=
  C9_create_getById_roundtrip "ffffffffffffffffffffffff"
    ⟨"t", "a", "d", 10, "img", "isbn", ["g"], ["x"], "2020", 100, "en",
      "p", 4, 2, true, false⟩ ⟨true, []⟩ rfl (by decide) (by decide)
    (by decide)

/-- C8: for every review-create request through the POST route, the stored
review's timestamp is the server-side value (`nowService`), whatever
timestamp the caller supplied in the body, and the verified flag is
`false` when the caller omits it while a caller-supplied `true` is kept. -/
theorem C8_review_create_server_timestamp (body : Routes.ReviewPostBody)
    (db : Reviews.ReviewsDb) (fresh : OID) (nowRoute nowService : String)
    (b a t c : String) (rt : ℚ)
    (hb : body.bookId = some b) (ha : body.author = some a)
    (hr : body.rating = some rt) (ht : body.title = some t)
    (hc : body.comment = some c)
    (hvb : ObjectId.isValid b = true) (hup : db.up = true)
    (hfr : ∀ d ∈ db.docs, (d._id == fresh) = false) :
    ∃ rev db', Routes.postReviews body fresh nowRoute nowService db =
        (⟨201, none, some rev⟩, db') ∧
      rev.timestamp = nowService ∧
      (body.verified = none → rev.verified = false) ∧
      (∀ v, body.verified = some v → rev.verified = v) := by
  obtain ⟨up, docs⟩ := db
  have hup' : up = true := hup
  subst hup'
  have hfind : (docs ++ [(⟨fresh, toOID b, a, rt, t, c, nowService,
      body.verified.getD false || false⟩ : Reviews.ReviewDocument)]).find?
      (fun d => d._id == fresh) =
      some ⟨fresh, toOID b, a, rt, t, c, nowService,
        body.verified.getD false || false⟩ :=
    find?_middle _ _ _ _ hfr (by simp)
  have hcr : Reviews.createReview fresh nowService
      ⟨b, a, rt, t, c, nowRoute, body.verified.getD false⟩ ⟨true, docs⟩ =
      .ok (Reviews.mapMongoId ⟨fresh, toOID b, a, rt, t, c, nowService,
        body.verified.getD false || false⟩,
        ⟨true, docs ++ [⟨fresh, toOID b, a, rt, t, c, nowService,
          body.verified.getD false || false⟩]⟩) := by
    simp only [Reviews.createReview, Reviews.getReviewsCollection, if_true,
      hvb, Bool.not_true, Bool.false_eq_true, if_false, hfind]
  refine ⟨Reviews.mapMongoId ⟨fresh, toOID b, a, rt, t, c, nowService,
      body.verified.getD false || false⟩,
    ⟨true, docs ++ [⟨fresh, toOID b, a, rt, t, c, nowService,
      body.verified.getD false || false⟩]⟩, ?_, rfl, ?_, ?_⟩
  · simp only [Routes.postReviews, hb, ha, hr, ht, hc, Option.isNone_some,
      Bool.false_eq_true, if_false, hcr]
  · intro hnone
    simp [Reviews.mapMongoId, hnone]
  · intro v hv
    simp [Reviews.mapMongoId, hv]

/-- Witness for C8 at a concrete body that supplies a bogus caller
timestamp and omits the verified flag. -/
theorem C8_review_create_server_timestamp_witness :
    ∃ rev db', Routes.postReviews
        ⟨some "aaaaaaaaaaaaaaaaaaaaaaaa", some "ann", some 5, some "t",
          some "c", some "HACKED-TS", none⟩
        "eeeeeeeeeeeeeeeeeeeeeeee" "R0" "S0" ⟨true, []⟩ =
        (⟨201, none, some rev⟩, db') ∧
      rev.timestamp = "S0" ∧
      ((⟨some "aaaaaaaaaaaaaaaaaaaaaaaa", some "ann", some 5, some "t",
          some "c", some "HACKED-TS", none⟩ :
        Routes.ReviewPostBody).verified = none → rev.verified = false) ∧
      (∀ v, (⟨some "aaaaaaaaaaaaaaaaaaaaaaaa", some "ann", some 5, some "t",
          some "c", some "HACKED-TS", none⟩ :
        Routes.ReviewPostBody).verified = some v → rev.verified = v) :=
  C8_review_create_server_timestamp
    ⟨some "aaaaaaaaaaaaaaaaaaaaaaaa", some "ann", some 5, some "t",
      some "c", some "HACKED-TS", none⟩
    ⟨true, []⟩ "eeeeeeeeeeeeeeeeeeeeeeee" "R0" "S0"
    "aaaaaaaaaaaaaaaaaaaaaaaa" "ann" "t" "c" 5 rfl rfl rfl rfl rfl
    (by decide) rfl (by decide)

/-- C4 counterexample: with review `"bbb…b"` stored (rating 3) and an
update supplying the malformed bookId `"xyz"` together with `rating := 4`,
`updateReview` does NOT reject the call: it succeeds and applies the
rating change (3 becomes 4), merely dropping the malformed bookId — so
the claimed `InvalidIdentifier` rejection with no field changes is false. -/
theorem C4_counterexample :
    Reviews.updateReview "bbbbbbbbbbbbbbbbbbbbbbbb"
      { bookId := some "xyz", rating := some 4 }
      ⟨true, [⟨"bbbbbbbbbbbbbbbbbbbbbbbb", "aaaaaaaaaaaaaaaaaaaaaaaa",
        "ann", 3, "t", "c", "T0", false⟩]⟩ =
      .ok (some ⟨"bbbbbbbbbbbbbbbbbbbbbbbb", "aaaaaaaaaaaaaaaaaaaaaaaa",
        "ann", 4, "t", "c", "T0", false⟩,
        ⟨true, [⟨"bbbbbbbbbbbbbbbbbbbbbbbb", "aaaaaaaaaaaaaaaaaaaaaaaa",
          "ann", 4, "t", "c", "T0", false⟩]⟩) ∧
    (4 : ℚ) ≠ 3 :=
  ⟨by rfl, by norm_num⟩

/-- C4 amended: when the update input omits `bookId` or supplies a
malformed (or empty) one, `updateReview` leaves the stored `bookId`
reference untouched, silently drops the supplied bookId, and applies all
the other supplied field changes (it does not reject the call). -/
theorem C4_amended_updateReview_drops_bad_bookId (id : String)
    (updates : Reviews.ReviewUpdates) (db : Reviews.ReviewsDb)
    (l₁ l₂ : List Reviews.ReviewDocument) (e : Reviews.ReviewDocument)
    (hv : ObjectId.isValid id = true) (hup : db.up = true)
    (hdocs : db.docs = l₁ ++ e :: l₂)
    (hl₁ : ∀ y ∈ l₁, (y._id == toOID id) = false)
    (he : (e._id == toOID id) = true)
    (hbad : updates.bookId = none ∨ ∃ m, updates.bookId = some m ∧
      ((m != "") && ObjectId.isValid m) = false) :
    Reviews.updateReview id updates db =
      .ok (some (Reviews.mapMongoId
        { e with
          author := updates.author.getD e.author
          rating := updates.rating.getD e.rating
          title := updates.title.getD e.title
          comment := updates.comment.getD e.comment
          timestamp := updates.timestamp.getD e.timestamp
          verified := updates.verified.getD e.verified }),
        ⟨true, l₁ ++
          { e with
            author := updates.author.getD e.author
            rating := updates.rating.getD e.rating
            title := updates.title.getD e.title
            comment := updates.comment.getD e.comment
            timestamp := updates.timestamp.getD e.timestamp
            verified := updates.verified.getD e.verified } :: l₂⟩) := by
  obtain ⟨up, docs⟩ := db
  have hup' : up = true := hup
  subst hup'
  have hdocs' : docs = l₁ ++ e :: l₂ := hdocs
  subst hdocs'
  have hbu : (match updates.bookId with
      | some b => if (b != "") && ObjectId.isValid b then some (toOID b)
                  else none
      | none => none) = (none : Option OID) := by
    rcases hbad with hnone | ⟨m, hm, hmbad⟩
    · rw [hnone]
    · rw [hm]
      simp [hmbad]
  have hfu := findOneAndUpdate_middle (fun d => d._id == toOID id)
    (Reviews.applyReviewSet ⟨none, updates.author, updates.rating,
      updates.title, updates.comment, updates.timestamp, updates.verified⟩)
    l₁ l₂ e hl₁ he
  simp only [Reviews.updateReview, hv, Bool.not_true, Bool.false_eq_true,
    if_false, Reviews.getReviewsCollection, if_true, hbu, hfu]
  simp [Reviews.applyReviewSet]

/-- Witness for the amended C4 at concrete inputs: the stored `bookId` is
kept and the rating change is applied when the supplied bookId is
malformed. -/
theorem C4_amended_updateReview_drops_bad_bookId_witness :
    Reviews.updateReview "bbbbbbbbbbbbbbbbbbbbbbbb"
      { bookId := some "not-an-id", rating := some 5 }
      ⟨true, [⟨"bbbbbbbbbbbbbbbbbbbbbbbb", "aaaaaaaaaaaaaaaaaaaaaaaa",
        "ann", 3, "t", "c", "T0", false⟩]⟩ =
      .ok (some (Reviews.mapMongoId
        { (⟨"bbbbbbbbbbbbbbbbbbbbbbbb", "aaaaaaaaaaaaaaaaaaaaaaaa",
            "ann", 3, "t", "c", "T0", false⟩ : Reviews.ReviewDocument) with
          author := (none : Option String).getD "ann"
          rating := (some (5 : ℚ)).getD 3
          title := (none : Option String).getD "t"
          comment := (none : Option String).getD "c"
          timestamp := (none : Option String).getD "T0"
          verified := (none : Option Bool).getD false }),
        ⟨true,
          [{ (⟨"bbbbbbbbbbbbbbbbbbbbbbbb", "aaaaaaaaaaaaaaaaaaaaaaaa",
              "ann", 3, "t", "c", "T0", false⟩ : Reviews.ReviewDocument) with
            author := (none : Option String).getD "ann"
            rating := (some (5 : ℚ)).getD 3
            title := (none : Option String).getD "t"
            comment := (none : Option String).getD "c"
            timestamp := (none : Option String).getD "T0"
            verified := (none : Option Bool).getD false }]⟩) :=
  C4_amended_updateReview_drops_bad_bookId "bbbbbbbbbbbbbbbbbbbbbbbb"
    { bookId := some "not-an-id", rating := some 5 }
    ⟨true, [⟨"bbbbbbbbbbbbbbbbbbbbbbbb", "aaaaaaaaaaaaaaaaaaaaaaaa",
      "ann", 3, "t", "c", "T0", false⟩]⟩
    [] []
    ⟨"bbbbbbbbbbbbbbbbbbbbbbbb", "aaaaaaaaaaaaaaaaaaaaaaaa", "ann", 3,
      "t", "c", "T0", false⟩
    (by decide) rfl rfl (by simp) (by decide)
    (Or.inr ⟨"not-an-id", rfl, by decide⟩)

/-- C3 counterexample: a malformed bookId (`"xyz"`, with positive
quantity) makes `POST /api/cart` answer 500 — not the claimed 400 — and a
positive NON-integer quantity (3/2) is accepted (201, and the line is
stored with quantity 3/2) instead of failing with `InvalidQuantity`. -/
theorem C3_counterexample :
    (Routes.postCart ⟨some "xyz", some 1⟩ "cccccccccccccccccccccccc" "T1"
      ⟨true, []⟩).1.status = 500 ∧
    0 < threeHalves ∧ threeHalves.den ≠ 1 ∧
    (Routes.postCart ⟨some "aaaaaaaaaaaaaaaaaaaaaaaa", some threeHalves⟩
      "cccccccccccccccccccccccc" "T1" ⟨true, []⟩).1.status = 201 ∧
    (Routes.postCart ⟨some "aaaaaaaaaaaaaaaaaaaaaaaa", some threeHalves⟩
      "cccccccccccccccccccccccc" "T1" ⟨true, []⟩).2.docs =
      [⟨"cccccccccccccccccccccccc", "aaaaaaaaaaaaaaaaaaaaaaaa", threeHalves,
        "T1"⟩] := by
  refine ⟨by decide, by decide, by decide, by rfl, by rfl⟩

/-- C3 amended: for the cart add operation, a malformed (non-empty)
`bookId` with a positive quantity makes `addCartItem` fail with the
`InvalidIdentifier` outcome (the thrown `Invalid Book ID` error), which
the route layer's catch-all maps to HTTP 500 with a generic message (not
400); a quantity `≤ 0` is rejected by the route with the
`InvalidQuantity` outcome (HTTP 400) before the operation is invoked
(positive non-integer quantities are accepted); in both failure cases the
cart state is unchanged. -/
theorem C3_amended_cart_post_errors (s : String) (q : ℚ) (fresh : OID)
    (now : String) (db : Cart.CartDb) (hs : (s == "") = false) :
    (ObjectId.isValid s = false → 0 < q →
      Cart.addCartItem fresh now ⟨s, q⟩ db = .error .invalidBookId ∧
      Routes.postCart ⟨some s, some q⟩ fresh now db =
        (⟨500, some "An error occurred while adding the item to the cart.",
          none⟩, db)) ∧
    (q ≤ 0 →
      Routes.postCart ⟨some s, some q⟩ fresh now db =
        (⟨400, some "Quantity must be a positive number", none⟩, db)) := by
  constructor
  · intro hv hq
    have hadd : Cart.addCartItem fresh now ⟨s, q⟩ db =
        .error .invalidBookId := by
      simp [Cart.addCartItem, hv]
    refine ⟨hadd, ?_⟩
    have hq' : ¬ q ≤ 0 := not_le.mpr hq
    simp only [Routes.postCart, hs, Bool.false_eq_true, if_false,
      if_neg hq', hadd]
  · intro hq
    simp only [Routes.postCart, hs, Bool.false_eq_true, if_false, if_pos hq]

/-- Witness for the amended C3 at the concrete malformed bookId `"xyz"`
with quantity 1 over an empty cart (the quantity-≤-0 conjunct holds
vacuously there). -/
theorem C3_amended_cart_post_errors_witness :
    (ObjectId.isValid "xyz" = false → 0 < (1 : ℚ) →
      Cart.addCartItem "cccccccccccccccccccccccc" "T1" ⟨"xyz", 1⟩
        ⟨true, []⟩ = .error .invalidBookId ∧
      Routes.postCart ⟨some "xyz", some 1⟩ "cccccccccccccccccccccccc" "T1"
        ⟨true, []⟩ =
        (⟨500, some "An error occurred while adding the item to the cart.",
          none⟩, ⟨true, []⟩)) ∧
    ((1 : ℚ) ≤ 0 →
      Routes.postCart ⟨some "xyz", some 1⟩ "cccccccccccccccccccccccc" "T1"
        ⟨true, []⟩ =
        (⟨400, some "Quantity must be a positive number", none⟩,
          ⟨true, []⟩)) :=
  C3_amended_cart_post_errors "xyz" 1 "cccccccccccccccccccccccc" "T1"
    ⟨true, []⟩ (by decide)
